import Mathlib

/-!
Shallow embedding of the todo-app backend (FastAPI/SQLAlchemy server under
`src/server/app`): the task query engine (`TodoRepository` /` TodoService`)
and the session-based authentication subsystem (`SessionRepository` /
`UserRepository` / `AuthService`).

Database tables are modelled as Lean lists in insertion (primary-key) order;
SQL queries become list filters, a stable sort models `ORDER BY`, and
`drop`/`take` model `OFFSET`/`LIMIT`. Python exceptions become `Except`
errors, and methods that mutate the store return the new store explicitly.
-/

namespace TodoApp

/-- Status enum from `app/models/todo.py` (`TodoStatus`). -/
inductive TodoStatus where
  | pending
  | in_progress
  | completed
deriving DecidableEq, Repr, BEq

/-- Row of the `todos` table (`app/models/todo.py`), with its tag
associations (`todo_tags` join rows) inlined as the list of associated tag
ids, mirroring the `Todo.tags` relationship. Timestamps are integers. -/
structure Todo where
  id : Nat
  user_id : Nat
  title : String
  description : Option String
  status : TodoStatus
  starts_date : Option Int
  expires_date : Option Int
  created_at : Int
  tags : List Nat
deriving DecidableEq, Repr

/-- Errors raised by `TodoService` (`app/core/exceptions.py` plus the
`ValueError` used for an invalid status filter). -/
inductive ServiceError where
  | invalidFilter
  | taskNotFound
  | unauthorizedAccess
deriving DecidableEq, Repr

/-- Parse a status query string exactly as `TodoStatus(status)` does in
`TodoService.get_todos_for_user`: the three enum values succeed, anything
else raises. -/
def statusOfString : String → Option TodoStatus
  | "pending" => some TodoStatus.pending
  | "in_progress" => some TodoStatus.in_progress
  | "completed" => some TodoStatus.completed
  | _ => none

/-- Insert one todo into a list already sorted by `created_at` descending,
keeping it before strictly older rows and after rows with the same or a
newer timestamp it follows in scan order. Together with
`sortByCreatedDesc` this is the stable denotation of
`ORDER BY created_at DESC` over rows scanned in table (id) order. -/
def insertByCreated (a : Todo) : List Todo → List Todo
  | [] => [a]
  | b :: rest =>
    if b.created_at ≤ a.created_at then a :: b :: rest
    else b :: insertByCreated a rest

/-- Stable sort by `created_at` descending: the denotation of
`query.order_by(Todo.created_at.desc())` in
`TodoRepository.get_all_for_user`. -/
def sortByCreatedDesc : List Todo → List Todo
  | [] => []
  | a :: rest => insertByCreated a (sortByCreatedDesc rest)

/-- Embedding of `TodoRepository.get_all_for_user`: filter by owner, then
optionally by status, then optionally by tags (a row matches when it has
any of the listed tags; the join plus `distinct()` denotes this set
filter), then sort by `created_at` descending and paginate with
`LIMIT limit OFFSET offset`. The `isEmpty` test mirrors Python truthiness
of `if tag_ids:` (both `None` and `[]` skip the filter). -/
def get_all_for_user (store : List Todo) (user_id : Nat) (status : Option TodoStatus)
    (tag_ids : Option (List Nat)) (limit : Nat) (offset : Nat) : List Todo :=
  let q1 := store.filter (fun t => t.user_id == user_id)
  let q2 := match status with
    | some s => q1.filter (fun t => t.status == s)
    | none => q1
  let q3 := match tag_ids with
    | some l => if l.isEmpty then q2 else q2.filter (fun t => t.tags.any (fun g => l.contains g))
    | none => q2
  ((sortByCreatedDesc q3).drop offset).take limit

/-- Embedding of `TodoService.get_todos_for_user`: validate the status
string when it is truthy (non-empty), cap the limit at 100, and delegate
to the repository. An empty status string is falsy in Python, so it skips
both the validation here and the filter in the repository. -/
def get_todos_for_user (store : List Todo) (user_id : Nat) (status : Option String)
    (tag_ids : Option (List Nat)) (limit : Nat) (offset : Nat) :
    Except ServiceError (List Todo) :=
  let lim := if limit > 100 then 100 else limit
  match status with
  | none => Except.ok (get_all_for_user store user_id none tag_ids lim offset)
  | some s =>
    if s.isEmpty then Except.ok (get_all_for_user store user_id none tag_ids lim offset)
    else
      match statusOfString s with
      | none => Except.error ServiceError.invalidFilter
      | some v => Except.ok (get_all_for_user store user_id (some v) tag_ids lim offset)

/-- Embedding of `TodoRepository.get_by_id`: first row whose id matches. -/
def get_by_id (store : List Todo) (todo_id : Nat) : Option Todo :=
  store.find? (fun t => t.id == todo_id)

/-- Embedding of `TodoService.get_todo`: not-found is checked before the
ownership comparison, exactly as in the source. -/
def get_todo (store : List Todo) (todo_id : Nat) (user_id : Nat) :
    Except ServiceError Todo :=
  match get_by_id store todo_id with
  | none => Except.error ServiceError.taskNotFound
  | some t =>
    if t.user_id != user_id then Except.error ServiceError.unauthorizedAccess
    else Except.ok t

/-- Sparse update payload (`TodoUpdate` in `app/schemas/todo.py`), after
`model_dump(exclude_unset=True)` in `TodoService.update_todo`. The outer
`Option` records whether the client supplied the field at all
(`exclude_unset`); the inner `Option` is the supplied value, which may be
the JSON null. -/
structure TodoUpdate where
  title : Option (Option String)
  description : Option (Option String)
  status : Option (Option TodoStatus)
  starts_date : Option (Option Int)
  expires_date : Option (Option Int)
  tag_ids : Option (Option (List Nat))
deriving DecidableEq, Repr

/-- One step of the kwargs loop in `TodoRepository.update`: a field is
written only when it was supplied and its value is not `None`
(`if value is not None: setattr(todo, key, value)`); otherwise the old
value stays. For a non-nullable column. -/
def applyField {α : Type} (supplied : Option (Option α)) (old : α) : α :=
  match supplied with
  | some (some v) => v
  | _ => old

/-- Same kwargs-loop step for a nullable column: a supplied non-`None`
value overwrites, a missing key or a supplied `None` leaves the column
untouched (the `value is not None` guard skips it). -/
def applyOptField {α : Type} (supplied : Option (Option α)) (old : Option α) : Option α :=
  match supplied with
  | some (some v) => some v
  | _ => old

/-- Embedding of `TodoRepository.update`. `tag_ids` is popped first: when
it was supplied with a list value (empty included), the tag associations
are replaced by the tags of the tag table whose id is listed (ids with no
matching tag are dropped by the `Tag.id.in_` query); a missing key or a
supplied `None` leaves them as they were. The remaining fields go through
the kwargs loop. `tagStore` is the list of existing tag ids in table
order. -/
def update (tagStore : List Nat) (todo : Todo) (data : TodoUpdate) : Todo :=
  let t1 := match data.tag_ids with
    | some (some l) => { todo with tags := tagStore.filter (fun g => l.contains g) }
    | _ => todo
  { t1 with
    title := applyField data.title t1.title
    description := applyOptField data.description t1.description
    status := applyField data.status t1.status
    starts_date := applyOptField data.starts_date t1.starts_date
    expires_date := applyOptField data.expires_date t1.expires_date }

/-- Embedding of `TodoService.update_todo`: ownership check via
`get_todo`, then the repository update on the found row. -/
def update_todo (store : List Todo) (tagStore : List Nat) (todo_id : Nat) (user_id : Nat)
    (data : TodoUpdate) : Except ServiceError Todo :=
  match get_todo store todo_id user_id with
  | Except.error e => Except.error e
  | Except.ok todo => Except.ok (update tagStore todo data)

/-- Row of the `users` table (`app/models/user.py`), the fields the
authentication service reads. -/
structure User where
  id : Nat
  email : String
  name : String
  password_hash : String
deriving DecidableEq, Repr

/-- Row of the `sessions` table (`app/models/session.py`). -/
structure Session where
  user_id : Nat
  token : String
  expires_at : Int
  is_active : Bool
deriving DecidableEq, Repr

/-- Errors raised by `AuthService` (`app/core/exceptions.py`). -/
inductive AuthError where
  | userAlreadyExists
  | invalidCredentials
  | sessionNotFound
  | sessionExpired
deriving DecidableEq, Repr

/-- Embedding of `UserRepository.get_by_email`: first row with that
email. -/
def get_by_email (users : List User) (email : String) : Option User :=
  users.find? (fun u => u.email == email)

/-- Embedding of `UserRepository.get_by_id`: first row with that id. -/
def user_by_id (users : List User) (user_id : Nat) : Option User :=
  users.find? (fun u => u.id == user_id)

/-- Embedding of `SessionRepository.get_by_token`: first row matching the
token that also has `is_active = true`; an inactive session is
indistinguishable from an absent one. -/
def get_by_token (sessions : List Session) (token : String) : Option Session :=
  sessions.find? (fun s => s.token == token && s.is_active)

/-- Embedding of `SessionRepository.is_expired`: strictly past
`expires_at`, independent of `is_active`. -/
def is_expired (now : Int) (s : Session) : Bool :=
  now > s.expires_at

/-- Embedding of `SessionRepository.delete`: look up the first active row
matching the token (as `get_by_token` does), set its `is_active` to false
and report success; report failure leaving the table unchanged when no
active row matches. Expiry is not consulted. -/
def sessionDelete : List Session → String → List Session × Bool
  | [], _ => ([], false)
  | s :: rest, token =>
    if s.token == token && s.is_active then
      ({ s with is_active := false } :: rest, true)
    else
      let r := sessionDelete rest token
      (s :: r.1, r.2)

/-- Embedding of `AuthService.signout`: delegate to the session delete and
raise `SessionNotFound` when nothing was deactivated. Returns the result
together with the session table after the call. -/
def signout (sessions : List Session) (token : String) :
    Except AuthError Unit × List Session :=
  let r := sessionDelete sessions token
  (if r.2 then Except.ok () else Except.error AuthError.sessionNotFound, r.1)

/-- Embedding of `AuthService.get_current_user` (resolve): an absent or
inactive session is `SessionNotFound`; a found-but-expired session is
deactivated and reported as `SessionExpired`; otherwise the owning user is
looked up, a missing user again being `SessionNotFound`. Returns the
result together with the session table after the call. -/
def get_current_user (users : List User) (sessions : List Session) (now : Int)
    (token : String) : Except AuthError User × List Session :=
  match get_by_token sessions token with
  | none => (Except.error AuthError.sessionNotFound, sessions)
  | some s =>
    if is_expired now s then
      (Except.error AuthError.sessionExpired, (sessionDelete sessions token).1)
    else
      match user_by_id users s.user_id with
      | none => (Except.error AuthError.sessionNotFound, sessions)
      | some u => (Except.ok u, sessions)

/-- Embedding of `AuthService.signin`. Password hashing and verification
(`app/core/security.py`, bcrypt) are kept abstract as the `verify`
parameter, and the random token from `generate_token` is passed in as
`token`; `SessionRepository.create` appends a fresh active session whose
`expires_at` is `now` plus the configured lifetime. Both failure paths
raise `InvalidCredentials`. -/
def signin (verify : String → String → Bool) (users : List User)
    (sessions : List Session) (email : String) (password : String) (token : String)
    (now : Int) (lifetime : Int) :
    Except AuthError (User × String) × List Session :=
  match get_by_email users email with
  | none => (Except.error AuthError.invalidCredentials, sessions)
  | some u =>
    if !(verify password u.password_hash) then
      (Except.error AuthError.invalidCredentials, sessions)
    else
      (Except.ok (u, token),
        sessions ++ [{ user_id := u.id, token := token,
                       expires_at := now + lifetime, is_active := true }])

/-- A live session in the sense of the specification (data model, section
3): active and not yet past its expiry at the given time. Used to compare
the specified `signout` failure condition with the implemented one. -/
def liveSession (now : Int) (s : Session) : Bool :=
  s.is_active && now ≤ s.expires_at

/-- Ordering relation used to state the list contract: the earlier row was
created no earlier than the later row (newest first). -/
def createdDescOrder (x y : Todo) : Prop := y.created_at ≤ x.created_at

theorem mem_insertByCreated {a x : Todo} {l : List Todo} :
    x ∈ insertByCreated a l ↔ x = a ∨ x ∈ l := by
  induction l with
  | nil => simp [insertByCreated]
  | cons b rest ih =>
    by_cases h : b.created_at ≤ a.created_at
    · simp [insertByCreated, h]
    · simp only [insertByCreated, if_neg h, List.mem_cons, ih]
      tauto

theorem perm_insertByCreated (a : Todo) (l : List Todo) :
    (insertByCreated a l).Perm (a :: l) := by
  induction l with
  | nil => simp [insertByCreated]
  | cons b rest ih =>
    by_cases h : b.created_at ≤ a.created_at
    · simp [insertByCreated, h]
    · simp only [insertByCreated, if_neg h]
      exact (ih.cons b).trans (List.Perm.swap a b rest)

theorem perm_sortByCreatedDesc (l : List Todo) : (sortByCreatedDesc l).Perm l := by
  induction l with
  | nil => simp [sortByCreatedDesc]
  | cons a rest ih =>
    exact (perm_insertByCreated a (sortByCreatedDesc rest)).trans (ih.cons a)

theorem sorted_insertByCreated {a : Todo} {l : List Todo}
    (h : l.Pairwise createdDescOrder) :
    (insertByCreated a l).Pairwise createdDescOrder := by
  induction l with
  | nil => simp [insertByCreated, createdDescOrder]
  | cons b rest ih =>
    rcases List.pairwise_cons.1 h with ⟨hb, hrest⟩
    by_cases hba : b.created_at ≤ a.created_at
    · simp only [insertByCreated, if_pos hba]
      refine List.pairwise_cons.2 ⟨?_, h⟩
      intro x hx
      rcases List.mem_cons.1 hx with rfl | hx
      · exact hba
      · exact le_trans (hb x hx) hba
    · simp only [insertByCreated, if_neg hba]
      refine List.pairwise_cons.2 ⟨?_, ih hrest⟩
      intro x hx
      rcases mem_insertByCreated.1 hx with rfl | hx
      · exact le_of_lt (not_le.mp hba)
      · exact hb x hx

theorem sorted_sortByCreatedDesc (l : List Todo) :
    (sortByCreatedDesc l).Pairwise createdDescOrder := by
  induction l with
  | nil => simp [sortByCreatedDesc]
  | cons a rest ih => exact sorted_insertByCreated ih

theorem user_id_of_mem_get_all {store : List Todo} {u : Nat}
    {status : Option TodoStatus} {tag_ids : Option (List Nat)} {limit offset : Nat}
    {t : Todo} (h : t ∈ get_all_for_user store u status tag_ids limit offset) :
    t.user_id = u := by
  have h4 : t ∈ store.filter (fun x => x.user_id == u) := by
    cases tag_ids with
    | none =>
      cases status with
      | none =>
        simp only [get_all_for_user] at h
        exact (perm_sortByCreatedDesc _).mem_iff.1
          (List.mem_of_mem_drop (List.mem_of_mem_take h))
      | some s =>
        simp only [get_all_for_user] at h
        exact List.mem_of_mem_filter ((perm_sortByCreatedDesc _).mem_iff.1
          (List.mem_of_mem_drop (List.mem_of_mem_take h)))
    | some l =>
      simp only [get_all_for_user] at h
      have h3 := (perm_sortByCreatedDesc _).mem_iff.1
        (List.mem_of_mem_drop (List.mem_of_mem_take h))
      by_cases he : l.isEmpty
      · rw [if_pos he] at h3
        cases status with
        | none => exact h3
        | some s => exact List.mem_of_mem_filter h3
      · rw [if_neg he] at h3
        cases status with
        | none => exact List.mem_of_mem_filter h3
        | some s => exact List.mem_of_mem_filter (List.mem_of_mem_filter h3)
  exact beq_iff_eq.mp (List.mem_filter.1 h4).2

/-- C1: for every user id, status filter, tag filter, limit and offset,
every task in the list returned by the service list operation is owned by
the requesting user; no call returns a task of a different user. -/
theorem C1_list_returns_only_own_tasks (store : List Todo) (u : Nat)
    (status : Option String) (tag_ids : Option (List Nat)) (limit offset : Nat)
    (l : List Todo) (t : Todo)
    (hok : get_todos_for_user store u status tag_ids limit offset = Except.ok l)
    (ht : t ∈ l) : t.user_id = u := by
  cases status with
  | none =>
    simp only [get_todos_for_user] at hok
    injection hok with h
    subst h
    exact user_id_of_mem_get_all ht
  | some s =>
    simp only [get_todos_for_user] at hok
    by_cases he : s.isEmpty
    · rw [if_pos he] at hok
      injection hok with h
      subst h
      exact user_id_of_mem_get_all ht
    · rw [if_neg he] at hok
      cases hv : statusOfString s with
      | none => rw [hv] at hok; simp at hok
      | some v =>
        rw [hv] at hok
        injection hok with h
        subst h
        exact user_id_of_mem_get_all ht

/-- Concrete instantiation of the C1 theorem: a two-user store where the
single returned task of user 1 indeed has owner 1. -/
theorem C1_list_returns_only_own_tasks_witness :
    ({ id := 1, user_id := 1, title := "a", description := none,
       status := TodoStatus.pending, starts_date := none, expires_date := none,
       created_at := 3, tags := [] } : Todo).user_id = 1 :=
  C1_list_returns_only_own_tasks
    [{ id := 1, user_id := 1, title := "a", description := none,
       status := TodoStatus.pending, starts_date := none, expires_date := none,
       created_at := 3, tags := [] },
     { id := 2, user_id := 2, title := "b", description := none,
       status := TodoStatus.pending, starts_date := none, expires_date := none,
       created_at := 4, tags := [] }]
    1 none none 50 0 _ _ rfl (List.mem_singleton.mpr rfl)

theorem sorted_get_all_for_user (store : List Todo) (u : Nat)
    (status : Option TodoStatus) (tag_ids : Option (List Nat)) (limit offset : Nat) :
    (get_all_for_user store u status tag_ids limit offset).Pairwise createdDescOrder := by
  simp only [get_all_for_user]
  exact List.Pairwise.sublist
    ((List.take_sublist _ _).trans (List.drop_sublist _ _))
    (sorted_sortByCreatedDesc _)

/-- C3 (amended): every list returned by the list operation is ordered by
creation time, most recent first, in the sense that `created_at` never
increases along the returned list. The repository applies no id tie-break,
so the descending-id clause of the original claim is dropped. -/
theorem C3_list_ordered_by_created_desc (store : List Todo) (u : Nat)
    (status : Option String) (tag_ids : Option (List Nat)) (limit offset : Nat)
    (l : List Todo)
    (hok : get_todos_for_user store u status tag_ids limit offset = Except.ok l) :
    l.Pairwise createdDescOrder := by
  cases status with
  | none =>
    simp only [get_todos_for_user] at hok
    injection hok with h
    subst h
    exact sorted_get_all_for_user _ _ _ _ _ _
  | some s =>
    simp only [get_todos_for_user] at hok
    by_cases he : s.isEmpty
    · rw [if_pos he] at hok
      injection hok with h
      subst h
      exact sorted_get_all_for_user _ _ _ _ _ _
    · rw [if_neg he] at hok
      cases hv : statusOfString s with
      | none => rw [hv] at hok; simp at hok
      | some v =>
        rw [hv] at hok
        injection hok with h
        subst h
        exact sorted_get_all_for_user _ _ _ _ _ _

/-- Concrete instantiation of the amended C3 theorem on a two-row store. -/
theorem C3_list_ordered_by_created_desc_witness :
    (List.Pairwise createdDescOrder
      [{ id := 2, user_id := 1, title := "b", description := none,
         status := TodoStatus.pending, starts_date := none, expires_date := none,
         created_at := 9, tags := [] },
       { id := 1, user_id := 1, title := "a", description := none,
         status := TodoStatus.pending, starts_date := none, expires_date := none,
         created_at := 3, tags := [] }]) :=
  C3_list_ordered_by_created_desc
    [{ id := 1, user_id := 1, title := "a", description := none,
       status := TodoStatus.pending, starts_date := none, expires_date := none,
       created_at := 3, tags := [] },
     { id := 2, user_id := 1, title := "b", description := none,
       status := TodoStatus.pending, starts_date := none, expires_date := none,
       created_at := 9, tags := [] }]
    1 none none 50 0 _ rfl

/-- First of the two equal-timestamp rows used to refute the descending-id
tie-break clause of C3. -/
def tieTodoOne : Todo :=
  { id := 1, user_id := 1, title := "a", description := none,
    status := TodoStatus.pending, starts_date := none, expires_date := none,
    created_at := 5, tags := [] }

/-- Second of the two equal-timestamp rows used to refute the
descending-id tie-break clause of C3. -/
def tieTodoTwo : Todo :=
  { id := 2, user_id := 1, title := "b", description := none,
    status := TodoStatus.pending, starts_date := none, expires_date := none,
    created_at := 5, tags := [] }

/-- C3 counterexample: two tasks of the same user with identical
`created_at` come back in ascending id order (the stable scan order), not
descending id as the claim states, because the query orders by
`created_at` only. -/
theorem C3_tie_break_counterexample :
    tieTodoOne.created_at = tieTodoTwo.created_at ∧
    tieTodoOne.id < tieTodoTwo.id ∧
    get_todos_for_user [tieTodoOne, tieTodoTwo] 1 none none 50 0
      = Except.ok [tieTodoOne, tieTodoTwo] :=
  ⟨rfl, by decide, rfl⟩

/-- C9: a limit above 100 is silently reduced to 100: the call returns
exactly what the call with limit 100 returns, for every store, user,
filter combination and offset. -/
theorem C9_limit_clamped_to_100 (store : List Todo) (u : Nat)
    (status : Option String) (tag_ids : Option (List Nat)) (offset : Nat)
    {L : Nat} (hL : 100 < L) :
    get_todos_for_user store u status tag_ids L offset
      = get_todos_for_user store u status tag_ids 100 offset := by
  have h1 : (if L > 100 then (100 : Nat) else L) = 100 := if_pos hL
  cases status with
  | none => simp only [get_todos_for_user, h1, ite_self]
  | some s => simp only [get_todos_for_user, h1, ite_self]

/-- Concrete instantiation of the C9 theorem: limit 200 equals limit 100
on a one-row store. -/
theorem C9_limit_clamped_to_100_witness :
    get_todos_for_user
      [{ id := 1, user_id := 1, title := "a", description := none,
         status := TodoStatus.pending, starts_date := none, expires_date := none,
         created_at := 3, tags := [] }] 1 none none 200 0
      = get_todos_for_user
      [{ id := 1, user_id := 1, title := "a", description := none,
         status := TodoStatus.pending, starts_date := none, expires_date := none,
         created_at := 3, tags := [] }] 1 none none 100 0 :=
  C9_limit_clamped_to_100 _ 1 none none 0 (by decide)

/-- C10: supplying `tag_ids` as the empty list is identical to omitting
it: Python truthiness makes `if tag_ids:` skip the filter for both `None`
and `[]`, so no tag filter is applied and untagged tasks still come
back. -/
theorem C10_empty_tag_filter_is_no_filter (store : List Todo) (u : Nat)
    (status : Option String) (limit offset : Nat) :
    get_todos_for_user store u status (some []) limit offset
      = get_todos_for_user store u status none limit offset := by
  cases status with
  | none => rfl
  | some s => rfl

/-- C6: on a task that does not exist, `get_todo` reports not-found for
every requesting user; on a task that exists but is owned by someone
else, it reports unauthorized. The not-found branch fires first, so a
nonexistent id never reveals anything about ownership. -/
theorem C6_not_found_before_ownership (store : List Todo) (todo_id u : Nat) :
    (get_by_id store todo_id = none →
      get_todo store todo_id u = Except.error ServiceError.taskNotFound) ∧
    (∀ t, get_by_id store todo_id = some t → t.user_id ≠ u →
      get_todo store todo_id u = Except.error ServiceError.unauthorizedAccess) := by
  constructor
  · intro h
    simp [get_todo, h]
  · intro t h hne
    simp [get_todo, h, hne]

/-- Concrete instantiation of the C6 theorem: a store owned by user 1,
queried by user 5: a missing id gives not-found, an existing foreign id
gives unauthorized. -/
theorem C6_not_found_before_ownership_witness :
    get_todo
      [{ id := 1, user_id := 1, title := "a", description := none,
         status := TodoStatus.pending, starts_date := none, expires_date := none,
         created_at := 3, tags := [] }] 2 5 = Except.error ServiceError.taskNotFound ∧
    get_todo
      [{ id := 1, user_id := 1, title := "a", description := none,
         status := TodoStatus.pending, starts_date := none, expires_date := none,
         created_at := 3, tags := [] }] 1 5 = Except.error ServiceError.unauthorizedAccess :=
  ⟨(C6_not_found_before_ownership _ 2 5).1 rfl,
   (C6_not_found_before_ownership _ 1 5).2
     { id := 1, user_id := 1, title := "a", description := none,
       status := TodoStatus.pending, starts_date := none, expires_date := none,
       created_at := 3, tags := [] } rfl (by decide)⟩

/-- C4: signin fails with the same error kind, `InvalidCredentials`, both
when no identity carries the email and when the identity exists but
password verification fails, for every verifier, store, and input; the
result does not reveal which check failed. -/
theorem C4_signin_uniform_error (verify : String → String → Bool)
    (users : List User) (sessions : List Session)
    (email password token : String) (now lifetime : Int) :
    (get_by_email users email = none →
      (signin verify users sessions email password token now lifetime).1
        = Except.error AuthError.invalidCredentials) ∧
    (∀ u, get_by_email users email = some u →
      verify password u.password_hash = false →
      (signin verify users sessions email password token now lifetime).1
        = Except.error AuthError.invalidCredentials) := by
  constructor
  · intro h
    simp [signin, h]
  · intro u h hv
    simp [signin, h, hv]

/-- Identity row used to instantiate the C4 theorem. -/
def knownUser : User :=
  { id := 1, email := "a@x", name := "A", password_hash := "pw" }

/-- Concrete instantiation of the C4 theorem: an unknown email and a known
email with a wrong password produce the identical error value. -/
theorem C4_signin_uniform_error_witness :
    (signin (fun p h => p == h) [knownUser] [] "b@x" "bad" "tk" 0 60).1
      = Except.error AuthError.invalidCredentials ∧
    (signin (fun p h => p == h) [knownUser] [] "a@x" "bad" "tk" 0 60).1
      = Except.error AuthError.invalidCredentials :=
  ⟨(C4_signin_uniform_error (fun p h => p == h) [knownUser] [] "b@x" "bad" "tk" 0 60).1 rfl,
   (C4_signin_uniform_error (fun p h => p == h) [knownUser] [] "a@x" "bad" "tk" 0 60).2
     knownUser rfl rfl⟩

theorem sessionDelete_found_iff (sessions : List Session) (token : String) :
    (sessionDelete sessions token).2
      = sessions.any (fun s => s.token == token && s.is_active) := by
  induction sessions with
  | nil => rfl
  | cons s rest ih =>
    by_cases h : (s.token == token && s.is_active) = true
    · simp [sessionDelete, h]
    · simp [sessionDelete, h, ih]

/-- C5 (amended): signout fails with `SessionNotFound` exactly when no
session row with the given token is marked active; `expires_at` is never
consulted, so signout on an active-but-expired session succeeds (and
deactivates it) rather than failing. -/
theorem C5_signout_checks_active_only (sessions : List Session) (token : String) :
    (signout sessions token).1 = Except.error AuthError.sessionNotFound ↔
      sessions.any (fun s => s.token == token && s.is_active) = false := by
  simp only [signout, sessionDelete_found_iff]
  cases hany : sessions.any (fun s => s.token == token && s.is_active) <;> simp

/-- Session used to refute C5 as stated: still marked active but already
past its expiry at the observation time 5. -/
def expiredActiveSession : Session :=
  { user_id := 1, token := "tk", expires_at := 0, is_active := true }

/-- C5 counterexample: at time 5 the store holds no live session (the only
row is active but expired), yet signout succeeds instead of failing with
`SessionNotFound` as the claim requires. -/
theorem C5_expired_signout_counterexample :
    List.filter (liveSession 5) [expiredActiveSession] = [] ∧
    (signout [expiredActiveSession] "tk").1 = Except.ok () :=
  ⟨rfl, rfl⟩

/-- Uniqueness of the token column (the `unique=True` constraint on
`Session.token`), phrased for one token: no two rows of the table both
carry it. -/
def tokenUniqueFor (t : String) (sessions : List Session) : Prop :=
  sessions.Pairwise (fun x y => x.token = t → y.token ≠ t)

theorem get_by_token_after_delete {sessions : List Session} {t : String} {s : Session}
    (hfind : get_by_token sessions t = some s)
    (huniq : tokenUniqueFor t sessions) :
    get_by_token (sessionDelete sessions t).1 t = none := by
  induction sessions with
  | nil => simp [get_by_token] at hfind
  | cons a rest ih =>
    rcases List.pairwise_cons.1 huniq with ⟨ha, hrest⟩
    by_cases h : (a.token == t && a.is_active) = true
    · have hatok : a.token = t := by
        have h2 := h
        rw [Bool.and_eq_true] at h2
        exact beq_iff_eq.mp h2.1
      simp only [sessionDelete, if_pos h, get_by_token]
      refine List.find?_eq_none.2 ?_
      intro x hx
      rcases List.mem_cons.1 hx with rfl | hx2
      · simp
      · intro hcontra
        rw [Bool.and_eq_true] at hcontra
        exact ha x hx2 hatok (beq_iff_eq.mp hcontra.1)
    · have hfind2 : get_by_token rest t = some s := by
        simp only [get_by_token] at hfind ⊢
        rw [@List.find?_cons_of_neg Session (fun x => x.token == t && x.is_active)
          a rest h] at hfind
        exact hfind
      simp only [sessionDelete, if_neg h, get_by_token]
      rw [@List.find?_cons_of_neg Session (fun x => x.token == t && x.is_active)
        a (sessionDelete rest t).1 h]
      exact ih hfind2 hrest

/-- C2: a stored active session that is strictly past its expiry yields
`SessionExpired` from resolve exactly once: the call deactivates the
session (no active row with that token remains), and every later resolve
on the same token, at any time, fails with `SessionNotFound`. The token
uniqueness constraint of the sessions table is the hypothesis `huniq`. -/
theorem C2_expired_session_resolved_once (users : List User)
    (sessions : List Session) (t : String) (now nowLater : Int) (s : Session)
    (hfind : get_by_token sessions t = some s)
    (hexp : s.expires_at < now)
    (huniq : tokenUniqueFor t sessions) :
    (get_current_user users sessions now t).1
      = Except.error AuthError.sessionExpired ∧
    get_by_token (get_current_user users sessions now t).2 t = none ∧
    (get_current_user users (get_current_user users sessions now t).2 nowLater t).1
      = Except.error AuthError.sessionNotFound := by
  have hdel := get_by_token_after_delete hfind huniq
  have hexpb : is_expired now s = true := by
    simp only [is_expired, gt_iff_lt, decide_eq_true_eq]
    exact hexp
  have h1 : get_current_user users sessions now t
      = (Except.error AuthError.sessionExpired, (sessionDelete sessions t).1) := by
    simp [get_current_user, hfind, hexpb]
  refine ⟨by rw [h1], ?_, ?_⟩
  · rw [h1]
    exact hdel
  · rw [h1]
    simp [get_current_user, hdel]

/-- Session row used to instantiate the C2 theorem: active, expired at
time 0. -/
def expiredSessionRow : Session :=
  { user_id := 1, token := "tk", expires_at := 0, is_active := true }

/-- Concrete instantiation of the C2 theorem: one active session expired
at time 0, resolved at time 5 and again at time 9. -/
theorem C2_expired_session_resolved_once_witness :
    (get_current_user [] [expiredSessionRow] 5 "tk").1
      = Except.error AuthError.sessionExpired ∧
    get_by_token (get_current_user [] [expiredSessionRow] 5 "tk").2 "tk" = none ∧
    (get_current_user [] (get_current_user [] [expiredSessionRow] 5 "tk").2 9 "tk").1
      = Except.error AuthError.sessionNotFound :=
  C2_expired_session_resolved_once [] [expiredSessionRow] "tk" 5 9
    expiredSessionRow rfl (by decide) (by simp [tokenUniqueFor])

/-- C7: for an existing task owned by the requester, update is a sparse
patch: every field the payload leaves unset keeps its old value, the
immutable columns id, owner and creation time are never touched, and a
`tag_ids` supplied with a list value (the empty list included) fully
replaces the tag associations with the existing tags carrying the listed
ids. -/
theorem C7_update_sparse_patch (store : List Todo) (tagStore : List Nat)
    (todo_id user_id : Nat) (data : TodoUpdate) (todo r : Todo)
    (hget : get_todo store todo_id user_id = Except.ok todo)
    (hr : update_todo store tagStore todo_id user_id data = Except.ok r) :
    (data.title = none → r.title = todo.title) ∧
    (data.description = none → r.description = todo.description) ∧
    (data.status = none → r.status = todo.status) ∧
    (data.starts_date = none → r.starts_date = todo.starts_date) ∧
    (data.expires_date = none → r.expires_date = todo.expires_date) ∧
    (data.tag_ids = none → r.tags = todo.tags) ∧
    r.id = todo.id ∧ r.user_id = todo.user_id ∧ r.created_at = todo.created_at ∧
    (∀ l, data.tag_ids = some (some l) →
      r.tags = tagStore.filter (fun g => l.contains g)) := by
  simp only [update_todo, hget] at hr
  injection hr with hr
  subst hr
  rcases hdt : data.tag_ids with _ | (_ | l0) <;>
    refine ⟨fun h => ?_, fun h => ?_, fun h => ?_, fun h => ?_, fun h => ?_,
      fun h => ?_, ?_, ?_, ?_, fun l hl => ?_⟩ <;>
    simp_all [update, applyField, applyOptField]

/-- Task row used to instantiate the C7 theorem. -/
def patchTodo : Todo :=
  { id := 1, user_id := 1, title := "a", description := some "d",
    status := TodoStatus.pending, starts_date := none, expires_date := none,
    created_at := 0, tags := [7] }

/-- Update payload used to instantiate the C7 theorem: only `tag_ids` is
supplied, as the empty list. -/
def clearTagsPatch : TodoUpdate :=
  { title := none, description := none, status := none, starts_date := none,
    expires_date := none, tag_ids := some (some []) }

/-- Concrete instantiation of the C7 theorem: an update supplying only an
empty `tag_ids` clears the associations and leaves the description (an
unset field) unchanged. -/
theorem C7_update_sparse_patch_witness :
    ({ patchTodo with tags := [] } : Todo).description = patchTodo.description ∧
    ({ patchTodo with tags := [] } : Todo).tags
      = List.filter (fun g => List.contains ([] : List Nat) g) [5, 7] :=
  ⟨(C7_update_sparse_patch [patchTodo] [5, 7] 1 1 clearTagsPatch patchTodo
      { patchTodo with tags := [] } rfl rfl).2.1 rfl,
   (C7_update_sparse_patch [patchTodo] [5, 7] 1 1 clearTagsPatch patchTodo
      { patchTodo with tags := [] } rfl rfl).2.2.2.2.2.2.2.2.2 [] rfl⟩

/-- C8: with a non-empty tag filter, and pagination wide enough not to
truncate, the list operation returns exactly the tasks of the user that
carry at least one of the listed tags (the union over the listed tags),
each at most once. -/
theorem C8_tag_filter_is_union (store : List Todo) (u : Nat) (gl : List Nat)
    (limit : Nat) (r : List Todo)
    (hne : gl ≠ []) (hlim : limit ≤ 100) (hlen : store.length ≤ limit)
    (hnd : store.Nodup)
    (hok : get_todos_for_user store u none (some gl) limit 0 = Except.ok r) :
    (∀ t, t ∈ r ↔ (t ∈ store ∧ t.user_id = u ∧ ∃ g ∈ t.tags, g ∈ gl)) ∧
    r.Nodup := by
  have hclamp : (if limit > 100 then (100 : Nat) else limit) = limit :=
    if_neg (by omega)
  have hempty : ¬(gl.isEmpty = true) := by simpa using hne
  simp only [get_todos_for_user, hclamp, get_all_for_user, List.drop_zero] at hok
  rw [if_neg hempty] at hok
  set q3 := (store.filter (fun t => t.user_id == u)).filter
    (fun t => t.tags.any (fun g => gl.contains g)) with hq3
  have hlenq : (sortByCreatedDesc q3).length ≤ limit := by
    rw [(perm_sortByCreatedDesc q3).length_eq]
    calc q3.length ≤ (store.filter (fun t => t.user_id == u)).length :=
          List.length_filter_le _ _
      _ ≤ store.length := List.length_filter_le _ _
      _ ≤ limit := hlen
  rw [List.take_of_length_le hlenq] at hok
  injection hok with hok
  subst hok
  refine ⟨?_, ((perm_sortByCreatedDesc q3).symm).nodup
    ((hnd.filter _).filter _)⟩
  intro t
  rw [(perm_sortByCreatedDesc q3).mem_iff, hq3]
  simp [List.mem_filter, List.any_eq_true, List.contains_eq_any_beq,
    beq_iff_eq, and_assoc]
  tauto

/-- Task of user 1 carrying tag 1, used to instantiate the C8 theorem. -/
def unionTodoA : Todo :=
  { id := 1, user_id := 1, title := "a", description := none,
    status := TodoStatus.pending, starts_date := none, expires_date := none,
    created_at := 1, tags := [1] }

/-- Untagged task of user 1, used to instantiate the C8 theorem. -/
def unionTodoB : Todo :=
  { id := 2, user_id := 1, title := "b", description := none,
    status := TodoStatus.pending, starts_date := none, expires_date := none,
    created_at := 2, tags := [] }

/-- Task of user 2 carrying tag 2, used to instantiate the C8 theorem. -/
def unionTodoC : Todo :=
  { id := 3, user_id := 2, title := "c", description := none,
    status := TodoStatus.pending, starts_date := none, expires_date := none,
    created_at := 3, tags := [2] }

/-- Concrete instantiation of the C8 theorem on a three-row store with the
tag filter [1, 2]. -/
theorem C8_tag_filter_is_union_witness :
    (∀ t, t ∈ [unionTodoA] ↔
      (t ∈ [unionTodoA, unionTodoB, unionTodoC] ∧ t.user_id = 1 ∧
        ∃ g ∈ t.tags, g ∈ [1, 2])) ∧
    ([unionTodoA] : List Todo).Nodup :=
  C8_tag_filter_is_union [unionTodoA, unionTodoB, unionTodoC] 1 [1, 2] 50
    [unionTodoA] (by decide) (by decide) (by decide) (by decide) rfl

end TodoApp

